import Mathlib

/-!
Verification of `ste/xfer-setProperties.go`

Shallow embedding of the set-properties transfer dispatcher of AzCopy
(`SetProperties`, `setPropertiesBlob`, `setPropertiesBlobFS`, `setPropertiesFile`).

Every call the Go code makes on its collaborators (the job-part transfer
manager `jptm`, the storage service, the lifecycle manager) is recorded, in
program order, in one trace kept in the state that is threaded through the
functions.  A Go run-time panic ends the function and is recorded in the state.
-/

namespace SetProps

/-! ## Data model -/

/-- Modelled from the spec: the declaration of `common.ELocation` is not part of the
source file.  The spec calls it the source backend kind; the code distinguishes `Blob`,
`BlobFS` and `File` from every other value. -/
inductive Location
  | Unknown | Local | Pipe | Blob | File | BlobFS | S3 | Benchmark | GCP
  deriving DecidableEq, Repr

/-- Modelled from the spec: the declaration of `common.FromTo` is not part of the source
file; `From()` gives the recorded source backend kind, `To()` the destination kind. -/
structure FromTo where
  From : Location
  To : Location
  deriving DecidableEq, Repr

/-- Modelled from the spec: the declaration of `common.TransferStatus` is not part of
the source file; the spec enumerates the status field as InProgress, Success, Failed. -/
inductive TransferStatus
  | InProgress | Success | Failed
  deriving DecidableEq, Repr

/-- Log levels of `pipeline.LogLevel`. -/
inductive LogLevel
  | LogNone | LogFatal | LogPanic | LogError | LogWarning | LogInfo | LogDebug
  deriving DecidableEq, Repr

/-- Generic key/value metadata (`common.Metadata`, `azblob.Metadata`, `azfile.Metadata`). -/
abbrev Metadata := List (String × String)

/-- Modelled from the spec: the declaration of `azbfs.BlobFSAccessControl` is not part of
the source file; it is the access-control descriptor of the hierarchical variant. -/
structure BlobFSAccessControl where
  Owner : String
  Group : String
  ACL : String
  Permissions : String
  deriving DecidableEq, Repr

/-- The Go composite literal `azbfs.BlobFSAccessControl{}` (all fields zero). -/
def BlobFSAccessControl.zero : BlobFSAccessControl := ⟨"", "", "", ""⟩

/-- Modelled from the spec: the declaration of `TransferInfo` is not part of the source
file.  The code reads `Source`, `Destination` and `SrcMetadata`; the spec's data model
gives a transfer, besides the key/value metadata, an access-control descriptor for the
hierarchical variant, kept here as `AccessControl`. -/
structure TransferInfo where
  Source : String
  Destination : String
  SrcMetadata : Metadata
  AccessControl : BlobFSAccessControl
  deriving DecidableEq, Repr

/-- Result of a successful `url.Parse`. -/
structure URL where
  raw : String
  deriving DecidableEq, Repr

/-- Network client `pipeline.Pipeline`, only ever passed along. -/
structure Pipeline where
  ident : Nat
  deriving DecidableEq, Repr

/-- Throughput pacer, unused by the code. -/
structure Pacer where
  ident : Nat
  deriving DecidableEq, Repr

/-- Resource handle built by `azblob.NewBlobURL`, `azbfs.NewFileURL`, `azfile.NewFileURL`. -/
structure ResourceURL where
  url : URL
  p : Pipeline
  deriving DecidableEq, Repr

/-- Modelled from the spec: the declaration of `common.ChunkID` is not part of the source
file; it identifies one schedulable unit by a name, an offset and a length. -/
structure ChunkID where
  Name : String
  OffsetInFile : Int
  Length : Int
  deriving DecidableEq, Repr

/-- Modelled from the spec: `common.NewChunkID(name, offsetInFile, length)` is not part of
the source file; it builds the chunk id from its three arguments. -/
def NewChunkID (name : String) (offsetInFile length : Int) : ChunkID :=
  ⟨name, offsetInFile, length⟩

/-- A Go `error` value together with its dynamic type.  The three storage SDKs each
have their own `StorageError` interface (their `ServiceCode()` methods return
different named types), so a value of one does not satisfy the interface of another.
`plain` is any error that carries no protocol status code (for example a timeout). -/
inductive GoError
  | azblobStorageError (statusCode : Int) (text : String)
  | azbfsStorageError (statusCode : Int) (text : String)
  | azfileStorageError (statusCode : Int) (text : String)
  | plain (text : String)
  deriving DecidableEq, Repr

/-- Method `err.Error()`. -/
def GoError.Error : GoError → String
  | .azblobStorageError _ t => t
  | .azbfsStorageError _ t => t
  | .azfileStorageError _ t => t
  | .plain t => t

/-- The protocol status code an error carries, whatever its representation. -/
def GoError.statusCode : GoError → Option Int
  | .azblobStorageError c _ => some c
  | .azbfsStorageError c _ => some c
  | .azfileStorageError c _ => some c
  | .plain _ => none

/-- The type assertion `strErr, ok := err.(azblob.StorageError)` followed by
`strErr.Response().StatusCode`: `some code` when `ok`, `none` otherwise. -/
def GoError.assertAzblobStorageError : GoError → Option Int
  | .azblobStorageError c _ => some c
  | _ => none

/-- Constant `http.StatusForbidden`. -/
def StatusForbidden : Int := 403

/-- One request to the storage service. -/
inductive RemoteCall
  | BlobSetMetadata (target : ResourceURL) (metadata : Metadata)
  | BlobFSSetAccessControl (target : ResourceURL) (acl : BlobFSAccessControl)
  | FileSetMetadata (target : ResourceURL) (metadata : Metadata)
  deriving DecidableEq, Repr

/-- Everything the code does to a collaborator, in program order. -/
inductive Event
  | WasCanceled
  | Info
  | FromTo
  | Context
  | ScheduleChunks (id : ChunkID)
  | Log (level : LogLevel) (msg : String)
  | LogError (resource : String) (context : String) (err : Option GoError)
  | SetStatus (status : TransferStatus)
  | ReportTransferDone
  | Remote (call : RemoteCall)
  | LifecycleError (msg : String)
  deriving DecidableEq, Repr

/-- State of the transfer manager behind `IJobPartTransferMgr`, with the trace of all
events so far and the message of a panic if the goroutine has panicked. -/
structure Jptm where
  canceled : Bool
  info : TransferInfo
  fromTo : FromTo
  status : TransferStatus
  trace : List Event
  panicked : Option String
  deriving DecidableEq, Repr

/-- What the code cannot decide by itself: `url.Parse` (`none` is a parse error, which
leaves the returned pointer nil) and the answer of the storage service to a request
(`none` is a nil error). -/
structure Env where
  urlParse : String → Option URL
  respond : RemoteCall → Option GoError

/-! ## Collaborator methods -/

/-- Append one event to the trace. -/
def Jptm.record (j : Jptm) (e : Event) : Jptm :=
  { j with trace := j.trace ++ [e] }

/-- Method `jptm.WasCanceled()`. -/
def Jptm.WasCanceled (j : Jptm) : Bool × Jptm :=
  (j.canceled, j.record .WasCanceled)

/-- Method `jptm.Info()`. -/
def Jptm.Info (j : Jptm) : TransferInfo × Jptm :=
  (j.info, j.record .Info)

/-- Method `jptm.FromTo()`. -/
def Jptm.FromTo (j : Jptm) : FromTo × Jptm :=
  (j.fromTo, j.record .FromTo)

/-- Method `jptm.Context()`. -/
def Jptm.Context (j : Jptm) : Jptm :=
  j.record .Context

/-- Method `jptm.Log(level, msg)`. -/
def Jptm.Log (j : Jptm) (level : LogLevel) (msg : String) : Jptm :=
  j.record (.Log level msg)

/-- Method `jptm.LogError(resource, context, err)`; `err` may be the nil error. -/
def Jptm.LogError (j : Jptm) (resource context : String) (err : Option GoError) : Jptm :=
  j.record (.LogError resource context err)

/-- Method `jptm.SetStatus(status)`. -/
def Jptm.SetStatus (j : Jptm) (status : TransferStatus) : Jptm :=
  { j with status := status, trace := j.trace ++ [.SetStatus status] }

/-- Method `jptm.ReportTransferDone()`. -/
def Jptm.ReportTransferDone (j : Jptm) : Jptm :=
  j.record .ReportTransferDone

/-- Modelled from the spec: `common.GetLifecycleMgr().Error(msg)` is not part of the
source file; the spec describes it as a process-wide job-fatal sink that receives a
notification. -/
def lifecycleMgrError (j : Jptm) (msg : String) : Jptm :=
  j.record (.LifecycleError msg)

/-- A Go panic: the message is kept and the function ends. -/
def Jptm.panic (j : Jptm) (msg : String) : Jptm :=
  { j with panicked := some msg }

/-- Send one request to the storage service: it is recorded and answered by `env`. -/
def remote (env : Env) (j : Jptm) (call : RemoteCall) : Option GoError × Jptm :=
  (env.respond call, j.record (.Remote call))

/-! ## String helpers -/

/-- Pieces of a character list between occurrences of `sep`. -/
def splitChars (sep : Char) : List Char → List (List Char)
  | [] => [[]]
  | c :: cs =>
    if c = sep then [] :: splitChars sep cs
    else
      match splitChars sep cs with
      | [] => [[c]]
      | piece :: rest => (c :: piece) :: rest

/-- Go `strings.Split(s, sep)` for a one-character separator. -/
def stringsSplit (s : String) (sep : Char) : List String :=
  (splitChars sep s.data).map String.mk

/-- The expression `strings.Split(s, "?")[0]`. -/
def splitQuestionFirst (s : String) : String :=
  (stringsSplit s '?').headD ""

/-- Modelled from the spec: `ToAzBlobMetadata` is not part of the source file; the spec
has the variant send the generic key/value metadata of the transfer, so the conversion
keeps keys and values. -/
def ToAzBlobMetadata (m : Metadata) : Metadata := m

/-- Modelled from the spec: `ToAzFileMetadata` is not part of the source file; the spec
has the variant send the generic key/value metadata of the transfer, so the conversion
keeps keys and values. -/
def ToAzFileMetadata (m : Metadata) : Metadata := m

/-- Text built by `fmt.Sprintf("SET-PROPERTIES SUCCESSFUL: %s", ...)`. -/
def successMsg (destination : String) : String :=
  "SET-PROPERTIES SUCCESSFUL: " ++ splitQuestionFirst destination

/-- Text built by `fmt.Sprintf("Authentication Failed. ... permission %s", err.Error())`. -/
def authFailedMsg (err : GoError) : String :=
  "Authentication Failed. The SAS is not correct or expired or does not have the correct permission "
    ++ err.Error

/-! ## The program -/

/-- The closure `transferDone`; its text is the same in the three variants
(lines 53-62, 94-103 and 134-143), and `info` is the variable it captures. -/
def transferDone (info : TransferInfo) (j : Jptm) (status : TransferStatus)
    (err : Option GoError) : Jptm :=
  let j :=
    if status = TransferStatus.Failed then
      j.LogError info.Source "SET-PROPERTIES ERROR " err
    else
      j.Log .LogInfo (successMsg info.Destination)
  let j := j.SetStatus status
  j.ReportTransferDone

/-- The branch `if err != nil`; its text is the same in the three variants (lines 65-79,
106-120 and 146-160): the type assertion to `azblob.StorageError`, the comparison of
the status code with `http.StatusForbidden`, then `transferDone(Failed, err)`. -/
def onError (info : TransferInfo) (j : Jptm) (err : GoError) : Jptm :=
  let j :=
    match err.assertAzblobStorageError with
    | some code =>
      if code = StatusForbidden then
        let errMsg := authFailedMsg err
        let j := j.Log .LogError errMsg
        lifecycleMgrError j errMsg
      else j
    | none => j
  transferDone info j .Failed (some err)

/-- Function `setPropertiesBlob`. -/
def setPropertiesBlob (env : Env) (jptm : Jptm) (p : Pipeline) : Jptm :=
  let (info, j) := jptm.Info
  match env.urlParse info.Source with
  | none => j.panic "runtime error: invalid memory address or nil pointer dereference"
  | some u =>
    let srcBlobURL : ResourceURL := ⟨u, p⟩
    let j := j.Context
    let (err, j) := remote env j (.BlobSetMetadata srcBlobURL (ToAzBlobMetadata info.SrcMetadata))
    match err with
    | some e => onError info j e
    | none => transferDone info j .Success none

/-- Function `setPropertiesBlobFS`. -/
def setPropertiesBlobFS (env : Env) (jptm : Jptm) (p : Pipeline) : Jptm :=
  let (info, j) := jptm.Info
  match env.urlParse info.Source with
  | none => j.panic "runtime error: invalid memory address or nil pointer dereference"
  | some u =>
    let srcBlobURL : ResourceURL := ⟨u, p⟩
    let j := j.Context
    let (err, j) := remote env j (.BlobFSSetAccessControl srcBlobURL BlobFSAccessControl.zero)
    match err with
    | some e => onError info j e
    | none => transferDone info j .Success none

/-- Function `setPropertiesFile`. -/
def setPropertiesFile (env : Env) (jptm : Jptm) (p : Pipeline) : Jptm :=
  let (info, j) := jptm.Info
  match env.urlParse info.Source with
  | none => j.panic "runtime error: invalid memory address or nil pointer dereference"
  | some u =>
    let srcFileURL : ResourceURL := ⟨u, p⟩
    let j := j.Context
    let (err, j) := remote env j (.FileSetMetadata srcFileURL (ToAzFileMetadata info.SrcMetadata))
    match err with
    | some e => onError info j e
    | none => transferDone info j .Success none

/-- The function literal that `SetProperties` hands to `createChunkFunc`. -/
def chunkBody (env : Env) (p : Pipeline) (jptm : Jptm) : Jptm :=
  let (ft, j) := jptm.FromTo
  match ft.From with
  | .Blob => setPropertiesBlob env j p
  | .BlobFS => setPropertiesBlobFS env j p
  | .File => setPropertiesFile env j p
  | _ => j.panic "Shouldn't have happened"

/-- A schedulable unit of work. -/
structure ChunkFunc where
  setDoneStatusOnExit : Bool
  id : ChunkID
  body : Jptm → Jptm

/-- Modelled from the spec: `createChunkFunc` is not part of the source file; the spec
says the unit, when run, selects and runs one of the property setter variants, so the
unit built here runs the body it was given. -/
def createChunkFunc (setDoneStatusOnExit : Bool) (id : ChunkID) (body : Jptm → Jptm) :
    ChunkFunc :=
  ⟨setDoneStatusOnExit, id, body⟩

/-- Running a scheduled unit on a worker. -/
def ChunkFunc.run (cf : ChunkFunc) (j : Jptm) : Jptm :=
  cf.body j

/-- Method `jptm.ScheduleChunks(cf)`: the call is recorded; the unit itself is handed to
the scheduler (second component of the result of `SetProperties`). -/
def Jptm.ScheduleChunks (j : Jptm) (cf : ChunkFunc) : Jptm :=
  j.record (.ScheduleChunks cf.id)

/-- Function `SetProperties`: the state afterwards and the units given to the scheduler. -/
def SetProperties (env : Env) (jptm : Jptm) (p : Pipeline) (_pacer : Pacer) :
    Jptm × List ChunkFunc :=
  let (canceled, j) := jptm.WasCanceled
  if canceled then
    (j.ReportTransferDone, [])
  else
    let (info, j) := j.Info
    let id := NewChunkID info.Source 0 0
    let cf := createChunkFunc true id (chunkBody env p)
    (j.ScheduleChunks cf, [cf])

/-- The whole life of one transfer in this file: `SetProperties`, then the scheduler
runs every unit it was given. -/
def runTransfer (env : Env) (jptm : Jptm) (p : Pipeline) (pacer : Pacer) : Jptm :=
  let (j, units) := SetProperties env jptm p pacer
  units.foldl (fun st cf => cf.run st) j

/-! ## Vocabulary of the specification -/

/-- The three property setter variants. -/
inductive Variant
  | Blob | BlobFS | File
  deriving DecidableEq, Repr

/-- The Go function of a variant. -/
def Variant.run : Variant → Env → Jptm → Pipeline → Jptm
  | .Blob => setPropertiesBlob
  | .BlobFS => setPropertiesBlobFS
  | .File => setPropertiesFile

/-- The request a variant sends for a transfer whose source locator parsed to `u`. -/
def Variant.request (v : Variant) (u : URL) (p : Pipeline) (info : TransferInfo) : RemoteCall :=
  match v with
  | .Blob => .BlobSetMetadata ⟨u, p⟩ (ToAzBlobMetadata info.SrcMetadata)
  | .BlobFS => .BlobFSSetAccessControl ⟨u, p⟩ BlobFSAccessControl.zero
  | .File => .FileSetMetadata ⟨u, p⟩ (ToAzFileMetadata info.SrcMetadata)

/-- The events added to the trace between two states. -/
def emitted (before after : Jptm) : List Event :=
  after.trace.drop before.trace.length

/-- Requests to the storage service. -/
def Event.isRemote : Event → Bool
  | .Remote _ => true
  | _ => false

/-- Calls of `jptm.Log`. -/
def Event.isLog : Event → Bool
  | .Log _ _ => true
  | _ => false

/-- Calls of `jptm.LogError`. -/
def Event.isLogError : Event → Bool
  | .LogError _ _ _ => true
  | _ => false

/-- Lines written to the transfer-level log: calls of `jptm.Log` and of `jptm.LogError`. -/
def Event.isLogLine (e : Event) : Bool :=
  e.isLog || e.isLogError

/-- Calls of `jptm.SetStatus`. -/
def Event.isSetStatus : Event → Bool
  | .SetStatus _ => true
  | _ => false

/-- Calls of `jptm.ReportTransferDone`. -/
def Event.isReportTransferDone : Event → Bool
  | .ReportTransferDone => true
  | _ => false

/-- Calls of `jptm.ScheduleChunks`. -/
def Event.isScheduleChunks : Event → Bool
  | .ScheduleChunks _ => true
  | _ => false

/-- Notifications of the job-fatal sink `GetLifecycleMgr().Error`. -/
def Event.isJobFatal : Event → Bool
  | .LifecycleError _ => true
  | _ => false

/-- Actions performed on the transfer manager (every method call on `jptm`). -/
def Event.onJptm : Event → Bool
  | .Remote _ => false
  | .LifecycleError _ => false
  | _ => true

/-- Resource arguments handed to `jptm.LogError`. -/
def loggedResources : List Event → List String
  | [] => []
  | .LogError resource _ _ :: es => resource :: loggedResources es
  | _ :: es => loggedResources es

/-- Messages handed to `jptm.Log`. -/
def loggedMessages : List Event → List String
  | [] => []
  | .Log _ msg :: es => msg :: loggedMessages es
  | _ :: es => loggedMessages es

/-- The source kind a variant serves. -/
def Variant.kind : Variant → Location
  | .Blob => .Blob
  | .BlobFS => .BlobFS
  | .File => .File

/-- Events of a variant run after the request when the request succeeds. -/
def tailSuccess (info : TransferInfo) : List Event :=
  [.Log .LogInfo (successMsg info.Destination), .SetStatus .Success, .ReportTransferDone]

/-- Events after the request when the error is not recognised as an authentication failure. -/
def tailOther (info : TransferInfo) (err : GoError) : List Event :=
  [.LogError info.Source "SET-PROPERTIES ERROR " (some err), .SetStatus .Failed,
    .ReportTransferDone]

/-- Events after the request when the error is recognised as an authentication failure. -/
def tailAuth (info : TransferInfo) (err : GoError) : List Event :=
  [.Log .LogError (authFailedMsg err), .LifecycleError (authFailedMsg err),
    .LogError info.Source "SET-PROPERTIES ERROR " (some err), .SetStatus .Failed,
    .ReportTransferDone]

/-! ## Concrete transfers used as examples -/

/-- A parser that accepts every locator. -/
def parseAll (s : String) : Option URL := some ⟨s⟩

/-- Environment in which every request succeeds. -/
def envOk : Env := ⟨parseAll, fun _ => none⟩

/-- Environment in which every request fails with `err`. -/
def envFail (err : GoError) : Env := ⟨parseAll, fun _ => some err⟩

/-- A transfer with tokens in both locators and a non-empty access-control descriptor. -/
def sampleInfo : TransferInfo :=
  ⟨"https://acct.blob.core.windows.net/c/b?sig=SECRET",
   "https://acct.blob.core.windows.net/c/d?sig=TOKEN",
   [("k", "v")],
   ⟨"alice", "staff", "user::rwx", "0750"⟩⟩

/-- A fresh transfer manager for `sampleInfo` with the given source kind. -/
def sampleJptm (kind : Location) (canceled : Bool) : Jptm :=
  ⟨canceled, sampleInfo, ⟨kind, .Unknown⟩, .InProgress, [], none⟩

/-- The pipeline used in the examples. -/
def samplePipeline : Pipeline := ⟨0⟩

/-- The pacer used in the examples. -/
def samplePacer : Pacer := ⟨0⟩

/-! ## Basic lemmas -/

theorem emitted_append (j r : Jptm) (l : List Event) (h : r.trace = j.trace ++ l) :
    emitted j r = l := by
  simp [emitted, h]

theorem transferDone_success (info : TransferInfo) (j : Jptm) :
    transferDone info j .Success none =
      { j with
        status := .Success
        trace := j.trace ++ [.Log .LogInfo (successMsg info.Destination),
          .SetStatus .Success, .ReportTransferDone] } := by
  simp [transferDone, Jptm.Log, Jptm.SetStatus, Jptm.ReportTransferDone, Jptm.record]

theorem transferDone_failed (info : TransferInfo) (j : Jptm) (err : Option GoError) :
    transferDone info j .Failed err =
      { j with
        status := .Failed
        trace := j.trace ++ [.LogError info.Source "SET-PROPERTIES ERROR " err,
          .SetStatus .Failed, .ReportTransferDone] } := by
  simp [transferDone, Jptm.LogError, Jptm.SetStatus, Jptm.ReportTransferDone, Jptm.record]

theorem run_parse_error (v : Variant) (env : Env) (j : Jptm) (p : Pipeline)
    (hparse : env.urlParse j.info.Source = none) :
    v.run env j p =
      { j with
        trace := j.trace ++ [.Info]
        panicked := some "runtime error: invalid memory address or nil pointer dereference" } := by
  cases v <;>
    simp [Variant.run, setPropertiesBlob, setPropertiesBlobFS, setPropertiesFile, Jptm.Info,
      Jptm.record, Jptm.panic, hparse]

theorem run_success (v : Variant) (env : Env) (j : Jptm) (p : Pipeline) (u : URL)
    (hparse : env.urlParse j.info.Source = some u)
    (hresp : env.respond (v.request u p j.info) = none) :
    v.run env j p =
      { j with
        status := .Success
        trace := j.trace ++ [.Info, .Context, .Remote (v.request u p j.info),
          .Log .LogInfo (successMsg j.info.Destination),
          .SetStatus .Success, .ReportTransferDone] } := by
  cases v <;>
    simp_all [Variant.run, Variant.request, setPropertiesBlob, setPropertiesBlobFS,
      setPropertiesFile, Jptm.Info, Jptm.Context, Jptm.record, remote, transferDone_success]

theorem run_error_other (v : Variant) (env : Env) (j : Jptm) (p : Pipeline) (u : URL)
    (err : GoError)
    (hparse : env.urlParse j.info.Source = some u)
    (hresp : env.respond (v.request u p j.info) = some err)
    (hcode : err.assertAzblobStorageError ≠ some StatusForbidden) :
    v.run env j p =
      { j with
        status := .Failed
        trace := j.trace ++ [.Info, .Context, .Remote (v.request u p j.info),
          .LogError j.info.Source "SET-PROPERTIES ERROR " (some err),
          .SetStatus .Failed, .ReportTransferDone] } := by
  have hon : onError j.info
      { j with trace := j.trace ++ [.Info, .Context, .Remote (v.request u p j.info)] } err =
      { j with
        status := .Failed
        trace := j.trace ++ [.Info, .Context, .Remote (v.request u p j.info),
          .LogError j.info.Source "SET-PROPERTIES ERROR " (some err),
          .SetStatus .Failed, .ReportTransferDone] } := by
    unfold onError
    cases hc : err.assertAzblobStorageError with
    | none => simp [transferDone_failed]
    | some code =>
      have hne : code ≠ StatusForbidden := by
        intro h
        exact hcode (by rw [hc, h])
      simp [hne, transferDone_failed]
  cases v <;>
    simp_all [Variant.run, Variant.request, setPropertiesBlob, setPropertiesBlobFS,
      setPropertiesFile, Jptm.Info, Jptm.Context, Jptm.record, remote]

theorem run_error_auth (v : Variant) (env : Env) (j : Jptm) (p : Pipeline) (u : URL)
    (err : GoError)
    (hparse : env.urlParse j.info.Source = some u)
    (hresp : env.respond (v.request u p j.info) = some err)
    (hcode : err.assertAzblobStorageError = some StatusForbidden) :
    v.run env j p =
      { j with
        status := .Failed
        trace := j.trace ++ [.Info, .Context, .Remote (v.request u p j.info),
          .Log .LogError (authFailedMsg err), .LifecycleError (authFailedMsg err),
          .LogError j.info.Source "SET-PROPERTIES ERROR " (some err),
          .SetStatus .Failed, .ReportTransferDone] } := by
  have hon : onError j.info
      { j with trace := j.trace ++ [.Info, .Context, .Remote (v.request u p j.info)] } err =
      { j with
        status := .Failed
        trace := j.trace ++ [.Info, .Context, .Remote (v.request u p j.info),
          .Log .LogError (authFailedMsg err), .LifecycleError (authFailedMsg err),
          .LogError j.info.Source "SET-PROPERTIES ERROR " (some err),
          .SetStatus .Failed, .ReportTransferDone] } := by
    unfold onError
    simp [hcode, transferDone_failed, Jptm.Log, lifecycleMgrError, Jptm.record]
  cases v <;>
    simp_all [Variant.run, Variant.request, setPropertiesBlob, setPropertiesBlobFS,
      setPropertiesFile, Jptm.Info, Jptm.Context, Jptm.record, remote]

theorem SetProperties_canceled_eq (env : Env) (jptm : Jptm) (p : Pipeline) (pacer : Pacer)
    (h : jptm.canceled = true) :
    SetProperties env jptm p pacer =
      ({ jptm with trace := jptm.trace ++ [.WasCanceled, .ReportTransferDone] }, []) := by
  simp [SetProperties, Jptm.WasCanceled, Jptm.ReportTransferDone, Jptm.record, h]

theorem SetProperties_active_eq (env : Env) (jptm : Jptm) (p : Pipeline) (pacer : Pacer)
    (h : jptm.canceled = false) :
    SetProperties env jptm p pacer =
      ({ jptm with
          trace := jptm.trace ++ [.WasCanceled, .Info,
            .ScheduleChunks (NewChunkID jptm.info.Source 0 0)] },
        [createChunkFunc true (NewChunkID jptm.info.Source 0 0) (chunkBody env p)]) := by
  simp [SetProperties, Jptm.WasCanceled, Jptm.Info, Jptm.ScheduleChunks, Jptm.record, h,
    createChunkFunc]

theorem splitChars_head (sep : Char) (l : List Char) :
    (splitChars sep l).head? = some (l.takeWhile (fun c => c != sep)) := by
  induction l with
  | nil => rfl
  | cons c cs ih =>
    by_cases hc : c = sep
    · simp [splitChars, hc]
    · cases hs : splitChars sep cs with
      | nil => simp [hs] at ih
      | cons piece rest =>
        simp [hs] at ih
        simp [splitChars, hc, hs, ih]

theorem splitQuestionFirst_eq (s : String) :
    splitQuestionFirst s = String.mk (s.data.takeWhile (fun c => c != '?')) := by
  have h := splitChars_head '?' s.data
  unfold splitQuestionFirst stringsSplit
  cases hs : splitChars '?' s.data with
  | nil => simp [hs] at h
  | cons piece rest =>
    simp [hs] at h
    simp [h]

theorem splitQuestionFirst_no_question (s : String) :
    '?' ∉ (splitQuestionFirst s).data := by
  rw [splitQuestionFirst_eq]
  intro h
  have := List.mem_takeWhile_imp h
  simp at this

theorem splitQuestionFirst_cut (base token : String) (hbase : '?' ∉ base.data) :
    splitQuestionFirst (base ++ "?" ++ token) = base := by
  rw [splitQuestionFirst_eq]
  have hd : (base ++ "?" ++ token).data = base.data ++ ('?' :: token.data) := by
    simp [String.data_append]
  rw [hd]
  have ht : List.takeWhile (fun c => c != '?') (base.data ++ ('?' :: token.data)) = base.data := by
    rw [List.takeWhile_append_of_pos]
    · simp
    · intro c hc
      have : c ≠ '?' := fun h => hbase (h ▸ hc)
      simpa using this
  rw [ht]

theorem splitQuestionFirst_whole (s : String) (h : '?' ∉ s.data) :
    splitQuestionFirst s = s := by
  rw [splitQuestionFirst_eq]
  have ht : List.takeWhile (fun c => c != '?') s.data = s.data := by
    rw [List.takeWhile_eq_self_iff]
    intro c hc
    have : c ≠ '?' := fun hq => h (hq ▸ hc)
    simpa using this
  rw [ht]

theorem successMsg_no_question (d : String) : '?' ∉ (successMsg d).data := by
  unfold successMsg
  rw [String.data_append]
  intro h
  rcases List.mem_append.mp h with h | h
  · revert h
    decide
  · exact splitQuestionFirst_no_question d h

theorem stringsSplit_three : stringsSplit "abc?def?g" '?' = ["abc", "def", "g"] := by decide

theorem stringsSplit_no_separator : stringsSplit "abc" '?' = ["abc"] := by decide

theorem stringsSplit_empty : stringsSplit "" '?' = [""] := by decide

theorem stringsSplit_edges : stringsSplit "?a?" '?' = ["", "a", ""] := by decide

theorem chunkBody_eq_run (v : Variant) (env : Env) (p : Pipeline) (j : Jptm)
    (hk : j.fromTo.From = v.kind) :
    chunkBody env p j = v.run env (j.record .FromTo) p := by
  cases v <;> simp [chunkBody, Jptm.FromTo, hk, Variant.kind, Variant.run]

theorem chunkBody_unsupported (env : Env) (p : Pipeline) (j : Jptm)
    (h1 : j.fromTo.From ≠ .Blob) (h2 : j.fromTo.From ≠ .BlobFS) (h3 : j.fromTo.From ≠ .File) :
    chunkBody env p j =
      { j with trace := j.trace ++ [.FromTo], panicked := some "Shouldn't have happened" } := by
  unfold chunkBody
  cases hk : j.fromTo.From <;> simp_all [Jptm.FromTo, Jptm.panic, Jptm.record]

theorem run_outcomes (v : Variant) (env : Env) (j : Jptm) (p : Pipeline) (u : URL)
    (hparse : env.urlParse j.info.Source = some u) :
    (v.run env j p =
      { j with
        status := .Success
        trace := j.trace ++ ([.Info, .Context, .Remote (v.request u p j.info)] ++
          tailSuccess j.info) }) ∨
    (∃ err, v.run env j p =
      { j with
        status := .Failed
        trace := j.trace ++ ([.Info, .Context, .Remote (v.request u p j.info)] ++
          tailOther j.info err) }) ∨
    (∃ err, v.run env j p =
      { j with
        status := .Failed
        trace := j.trace ++ ([.Info, .Context, .Remote (v.request u p j.info)] ++
          tailAuth j.info err) }) := by
  cases hresp : env.respond (v.request u p j.info) with
  | none => exact Or.inl (run_success v env j p u hparse hresp)
  | some err =>
    by_cases hc : err.assertAzblobStorageError = some StatusForbidden
    · exact Or.inr (Or.inr ⟨err, run_error_auth v env j p u err hparse hresp hc⟩)
    · exact Or.inr (Or.inl ⟨err, run_error_other v env j p u err hparse hresp hc⟩)

/-! ## Claims -/

/-- Claim C1: when `WasCanceled()` is true, `SetProperties` only asks `WasCanceled` and
calls `ReportTransferDone`: no request to the storage service, no unit scheduled, no
`SetStatus` (the status keeps its value), no log line, and `ReportTransferDone` exactly
once. -/
theorem C1_canceled_only_reports_done (env : Env) (jptm : Jptm) (p : Pipeline) (pacer : Pacer)
    (h : jptm.canceled = true) :
    (emitted jptm (SetProperties env jptm p pacer).1).countP Event.isRemote = 0 ∧
    (SetProperties env jptm p pacer).2 = [] ∧
    (emitted jptm (SetProperties env jptm p pacer).1).countP Event.isScheduleChunks = 0 ∧
    (emitted jptm (SetProperties env jptm p pacer).1).countP Event.isSetStatus = 0 ∧
    (SetProperties env jptm p pacer).1.status = jptm.status ∧
    (emitted jptm (SetProperties env jptm p pacer).1).countP Event.isLogLine = 0 ∧
    (emitted jptm (SetProperties env jptm p pacer).1).countP Event.isJobFatal = 0 ∧
    (emitted jptm (SetProperties env jptm p pacer).1).countP Event.isReportTransferDone = 1 ∧
    emitted jptm (SetProperties env jptm p pacer).1 = [.WasCanceled, .ReportTransferDone] := by
  rw [SetProperties_canceled_eq env jptm p pacer h]
  have he : emitted jptm { jptm with trace := jptm.trace ++ [.WasCanceled, .ReportTransferDone] }
      = [.WasCanceled, .ReportTransferDone] := emitted_append _ _ _ rfl
  rw [he]
  exact ⟨by decide, rfl, by decide, by decide, rfl, by decide, by decide, by decide, rfl⟩

theorem C1_canceled_only_reports_done_witness :
    (sampleJptm .Blob true).canceled = true ∧
    (emitted (sampleJptm .Blob true)
      (SetProperties envOk (sampleJptm .Blob true) samplePipeline samplePacer).1).countP
        Event.isReportTransferDone = 1 :=
  ⟨rfl, (C1_canceled_only_reports_done envOk (sampleJptm .Blob true) samplePipeline samplePacer
    rfl).2.2.2.2.2.2.2.1⟩

/-- Claim C2: for each of the three variants, when the request returns no error, the
status given to `SetStatus` is Success (and is the final status), exactly one log line
is written, namely `Log(LogInfo, "SET-PROPERTIES SUCCESSFUL: " + destination cut before
its first "?")`, `LogError` is never called and the job-fatal sink is never called.
The cut is stated on the characters of the destination: the text after the label is
the longest run of leading characters other than "?", it contains no "?", it is `base`
for a destination `base + "?" + token`, and it is the whole destination when that has
no "?". -/
theorem C2_success_outcome (v : Variant) (env : Env) (jptm : Jptm) (p : Pipeline) (u : URL)
    (hparse : env.urlParse jptm.info.Source = some u)
    (hresp : env.respond (v.request u p jptm.info) = none) :
    (v.run env jptm p).status = .Success ∧
    (emitted jptm (v.run env jptm p)).filter Event.isSetStatus = [.SetStatus .Success] ∧
    (emitted jptm (v.run env jptm p)).filter Event.isLogLine =
      [.Log .LogInfo ("SET-PROPERTIES SUCCESSFUL: " ++ splitQuestionFirst jptm.info.Destination)] ∧
    (emitted jptm (v.run env jptm p)).countP Event.isLogError = 0 ∧
    (emitted jptm (v.run env jptm p)).countP Event.isJobFatal = 0 ∧
    (emitted jptm (v.run env jptm p)).filter Event.isLogLine =
      [.Log .LogInfo ("SET-PROPERTIES SUCCESSFUL: " ++
        String.mk (jptm.info.Destination.data.takeWhile (fun c => c != '?')))] ∧
    (∀ level msg, Event.Log level msg ∈ emitted jptm (v.run env jptm p) →
      level = .LogInfo ∧ '?' ∉ msg.data) ∧
    (∀ base token : String, '?' ∉ base.data → jptm.info.Destination = base ++ "?" ++ token →
      (emitted jptm (v.run env jptm p)).filter Event.isLogLine =
        [.Log .LogInfo ("SET-PROPERTIES SUCCESSFUL: " ++ base)]) ∧
    ('?' ∉ jptm.info.Destination.data →
      (emitted jptm (v.run env jptm p)).filter Event.isLogLine =
        [.Log .LogInfo ("SET-PROPERTIES SUCCESSFUL: " ++ jptm.info.Destination)]) := by
  rw [run_success v env jptm p u hparse hresp]
  rw [emitted_append jptm _ _ rfl]
  have hlog : List.filter Event.isLogLine
      [Event.Info, Event.Context, Event.Remote (v.request u p jptm.info),
        Event.Log .LogInfo (successMsg jptm.info.Destination),
        Event.SetStatus .Success, Event.ReportTransferDone] =
      [Event.Log .LogInfo (successMsg jptm.info.Destination)] := by
    simp [List.filter, Event.isLogLine, Event.isLog, Event.isLogError]
  rw [hlog]
  refine ⟨rfl, ?_, rfl, ?_, ?_, ?_, ?_, ?_, ?_⟩
  · simp [List.filter, Event.isSetStatus]
  · simp [List.countP, List.countP.go, Event.isLogError]
  · simp [List.countP, List.countP.go, Event.isJobFatal]
  · simp [successMsg, splitQuestionFirst_eq]
  · intro level msg hmem
    have hm : level = .LogInfo ∧ msg = successMsg jptm.info.Destination := by
      simpa using hmem
    refine ⟨hm.1, ?_⟩
    rw [hm.2]
    exact successMsg_no_question _
  · intro base token hbase hdest
    simp [successMsg, hdest, splitQuestionFirst_cut base token hbase]
  · intro hno
    simp [successMsg, splitQuestionFirst_whole _ hno]

theorem C2_success_outcome_witness :
    envOk.urlParse (sampleJptm .BlobFS false).info.Source = some ⟨sampleInfo.Source⟩ ∧
    envOk.respond (Variant.request .BlobFS ⟨sampleInfo.Source⟩ samplePipeline
      (sampleJptm .BlobFS false).info) = none ∧
    (sampleJptm .BlobFS false).info.Destination
      = "https://acct.blob.core.windows.net/c/d" ++ "?" ++ "sig=TOKEN" ∧
    (emitted (sampleJptm .BlobFS false)
      (Variant.run .BlobFS envOk (sampleJptm .BlobFS false) samplePipeline)).filter
        Event.isLogLine =
      [.Log .LogInfo ("SET-PROPERTIES SUCCESSFUL: " ++ "https://acct.blob.core.windows.net/c/d")] :=
  ⟨rfl, rfl, by decide,
   (C2_success_outcome .BlobFS envOk (sampleJptm .BlobFS false) samplePipeline
    ⟨sampleInfo.Source⟩ rfl rfl).2.2.2.2.2.2.2.1 "https://acct.blob.core.windows.net/c/d"
      "sig=TOKEN" (by decide) (by decide)⟩

/-- Claim C4: for each of the three variants and every error that is not forbidden (it
carries another status code, or none), the final status is Failed, exactly one log
line is written, namely `LogError(source, "SET-PROPERTIES ERROR ", err)`, and the
job-fatal sink receives nothing. -/
theorem C4_other_error_outcome (v : Variant) (env : Env) (jptm : Jptm) (p : Pipeline) (u : URL)
    (err : GoError)
    (hparse : env.urlParse jptm.info.Source = some u)
    (hresp : env.respond (v.request u p jptm.info) = some err)
    (hcode : err.statusCode ≠ some StatusForbidden) :
    (v.run env jptm p).status = .Failed ∧
    (emitted jptm (v.run env jptm p)).filter Event.isSetStatus = [.SetStatus .Failed] ∧
    (emitted jptm (v.run env jptm p)).filter Event.isLogLine =
      [.LogError jptm.info.Source "SET-PROPERTIES ERROR " (some err)] ∧
    (emitted jptm (v.run env jptm p)).countP Event.isJobFatal = 0 := by
  have hc : err.assertAzblobStorageError ≠ some StatusForbidden := by
    cases err <;> simp_all [GoError.assertAzblobStorageError, GoError.statusCode]
  rw [run_error_other v env jptm p u err hparse hresp hc]
  rw [emitted_append jptm _ _ rfl]
  simp [List.filter, List.countP, List.countP.go, Event.isSetStatus, Event.isLogLine, Event.isLog,
    Event.isLogError, Event.isJobFatal]

theorem C4_other_error_outcome_witness :
    (envFail (.plain "context deadline exceeded")).urlParse (sampleJptm .File false).info.Source
      = some ⟨sampleInfo.Source⟩ ∧
    (envFail (.plain "context deadline exceeded")).respond
      (Variant.request .File ⟨sampleInfo.Source⟩ samplePipeline (sampleJptm .File false).info)
      = some (.plain "context deadline exceeded") ∧
    (GoError.plain "context deadline exceeded").statusCode ≠ some StatusForbidden ∧
    (Variant.run .File (envFail (.plain "context deadline exceeded")) (sampleJptm .File false)
      samplePipeline).status = .Failed :=
  ⟨rfl, rfl, by decide,
   (C4_other_error_outcome .File (envFail (.plain "context deadline exceeded"))
    (sampleJptm .File false) samplePipeline ⟨sampleInfo.Source⟩
    (.plain "context deadline exceeded") rfl rfl (by decide)).1⟩

/-- Claim C3, evaluated where it fails: the file-share variant receives a forbidden
error in the representation of its own SDK (`azfile.StorageError`, status 403), and the
hierarchical variant one in the representation of `azbfs`.  Both errors carry status
403, the transfers end Failed, but the job-fatal sink receives no notification, because
both variants only recognise `azblob.StorageError`. -/
theorem C3_forbidden_not_recognised :
    (GoError.azfileStorageError 403 "403 This request is not authorized").statusCode
      = some StatusForbidden ∧
    (setPropertiesFile (envFail (.azfileStorageError 403 "403 This request is not authorized"))
      (sampleJptm .File false) samplePipeline).status = .Failed ∧
    (emitted (sampleJptm .File false)
      (setPropertiesFile (envFail (.azfileStorageError 403 "403 This request is not authorized"))
        (sampleJptm .File false) samplePipeline)).countP Event.isJobFatal = 0 ∧
    (GoError.azbfsStorageError 403 "403 This request is not authorized").statusCode
      = some StatusForbidden ∧
    (setPropertiesBlobFS (envFail (.azbfsStorageError 403 "403 This request is not authorized"))
      (sampleJptm .BlobFS false) samplePipeline).status = .Failed ∧
    (emitted (sampleJptm .BlobFS false)
      (setPropertiesBlobFS (envFail (.azbfsStorageError 403 "403 This request is not authorized"))
        (sampleJptm .BlobFS false) samplePipeline)).countP Event.isJobFatal = 0 := by
  decide

/-- Claim C7 as stated fails: on the failure path the resource argument handed to
`jptm.LogError` is the source locator in full, token included. -/
theorem C7_counterexample :
    sampleInfo.Source = "https://acct.blob.core.windows.net/c/b" ++ "?" ++ "sig=SECRET" ∧
    loggedResources (emitted (sampleJptm .Blob false)
      (setPropertiesBlob (envFail (.plain "context deadline exceeded"))
        (sampleJptm .Blob false) samplePipeline))
      = ["https://acct.blob.core.windows.net/c/b?sig=SECRET"] ∧
    ¬ (∀ resource ∈ loggedResources (emitted (sampleJptm .Blob false)
        (setPropertiesBlob (envFail (.plain "context deadline exceeded"))
          (sampleJptm .Blob false) samplePipeline)),
        resource = splitQuestionFirst sampleInfo.Source) := by
  decide

/-- Claim C7, amended: on the success path of every variant the only text handed to the
log is `"SET-PROPERTIES SUCCESSFUL: "` followed by the destination locator with
everything from its first "?" onward removed (for a destination `base + "?" + token`
that is `base`), so it contains no "?"; on the failure path the resource argument
handed to `jptm.LogError` is the source locator unchanged, query component included. -/
theorem C7_logged_locators_amended (v : Variant) (env : Env) (jptm : Jptm) (p : Pipeline)
    (u : URL) (hparse : env.urlParse jptm.info.Source = some u) :
    (env.respond (v.request u p jptm.info) = none →
      loggedResources (emitted jptm (v.run env jptm p)) = [] ∧
      loggedMessages (emitted jptm (v.run env jptm p)) =
        ["SET-PROPERTIES SUCCESSFUL: " ++ splitQuestionFirst jptm.info.Destination] ∧
      (∀ msg ∈ loggedMessages (emitted jptm (v.run env jptm p)), '?' ∉ msg.data) ∧
      (∀ base token : String, '?' ∉ base.data → jptm.info.Destination = base ++ "?" ++ token →
        loggedMessages (emitted jptm (v.run env jptm p)) =
          ["SET-PROPERTIES SUCCESSFUL: " ++ base])) ∧
    (∀ err, env.respond (v.request u p jptm.info) = some err →
      loggedResources (emitted jptm (v.run env jptm p)) = [jptm.info.Source]) := by
  refine ⟨?_, ?_⟩
  · intro hresp
    rw [run_success v env jptm p u hparse hresp, emitted_append jptm _ _ rfl]
    refine ⟨by simp [loggedResources], by simp [loggedMessages, successMsg], ?_, ?_⟩
    · intro msg hmsg
      have hm : msg = successMsg jptm.info.Destination := by
        simpa [loggedMessages] using hmsg
      rw [hm]
      exact successMsg_no_question _
    · intro base token hbase hdest
      simp [loggedMessages, successMsg, hdest, splitQuestionFirst_cut base token hbase]
  · intro err hresp
    by_cases hc : err.assertAzblobStorageError = some StatusForbidden
    · rw [run_error_auth v env jptm p u err hparse hresp hc, emitted_append jptm _ _ rfl]
      simp [loggedResources]
    · rw [run_error_other v env jptm p u err hparse hresp hc, emitted_append jptm _ _ rfl]
      simp [loggedResources]

theorem C7_logged_locators_amended_witness :
    envOk.urlParse (sampleJptm .File false).info.Source = some ⟨sampleInfo.Source⟩ ∧
    loggedMessages (emitted (sampleJptm .File false)
      (Variant.run .File envOk (sampleJptm .File false) samplePipeline)) =
      ["SET-PROPERTIES SUCCESSFUL: " ++ "https://acct.blob.core.windows.net/c/d"] :=
  ⟨rfl, ((C7_logged_locators_amended .File envOk (sampleJptm .File false) samplePipeline
    ⟨sampleInfo.Source⟩ rfl).1 rfl).2.2.2 "https://acct.blob.core.windows.net/c/d" "sig=TOKEN"
      (by decide) (by decide)⟩

theorem run_remote_calls (v : Variant) (env : Env) (j : Jptm) (p : Pipeline) (u : URL)
    (hparse : env.urlParse j.info.Source = some u) :
    (emitted j (v.run env j p)).filter Event.isRemote = [.Remote (v.request u p j.info)] := by
  rcases run_outcomes v env j p u hparse with h | ⟨err, h⟩ | ⟨err, h⟩ <;>
    rw [h, emitted_append j _ _ rfl] <;>
    simp [List.filter, Event.isRemote, tailSuccess, tailOther, tailAuth]

/-- Claim C8 as stated fails: the request of the hierarchical variant does not carry the
access-control descriptor of the transfer; it carries the empty descriptor. -/
theorem C8_counterexample :
    ¬ ((emitted (sampleJptm .BlobFS false)
        (setPropertiesBlobFS envOk (sampleJptm .BlobFS false) samplePipeline)).filter
          Event.isRemote =
      [.Remote (.BlobFSSetAccessControl ⟨⟨sampleInfo.Source⟩, samplePipeline⟩
        (sampleJptm .BlobFS false).info.AccessControl)]) := by
  decide

/-- Claim C8, amended: each run of a variant on a source locator that parses sends
exactly one request, whatever the answer, addressed to the resource parsed from the
source locator; the object-store and file-share variants send the source metadata of
the transfer, and the hierarchical variant sends the empty access-control descriptor
`BlobFSAccessControl{}`, whatever the transfer holds. -/
theorem C8_one_request_amended (env : Env) (jptm : Jptm) (p : Pipeline) (u : URL)
    (hparse : env.urlParse jptm.info.Source = some u) :
    (emitted jptm (setPropertiesBlob env jptm p)).filter Event.isRemote =
      [.Remote (.BlobSetMetadata ⟨u, p⟩ jptm.info.SrcMetadata)] ∧
    (emitted jptm (setPropertiesFile env jptm p)).filter Event.isRemote =
      [.Remote (.FileSetMetadata ⟨u, p⟩ jptm.info.SrcMetadata)] ∧
    (emitted jptm (setPropertiesBlobFS env jptm p)).filter Event.isRemote =
      [.Remote (.BlobFSSetAccessControl ⟨u, p⟩ ⟨"", "", "", ""⟩)] :=
  ⟨run_remote_calls .Blob env jptm p u hparse, run_remote_calls .File env jptm p u hparse,
    run_remote_calls .BlobFS env jptm p u hparse⟩

theorem C8_one_request_amended_witness :
    (envFail (.plain "connection reset")).urlParse (sampleJptm .Blob false).info.Source
      = some ⟨sampleInfo.Source⟩ ∧
    (emitted (sampleJptm .Blob false)
      (setPropertiesBlob (envFail (.plain "connection reset")) (sampleJptm .Blob false)
        samplePipeline)).filter Event.isRemote =
      [.Remote (.BlobSetMetadata ⟨⟨sampleInfo.Source⟩, samplePipeline⟩ [("k", "v")])] :=
  ⟨rfl, (C8_one_request_amended (envFail (.plain "connection reset")) (sampleJptm .Blob false)
    samplePipeline ⟨sampleInfo.Source⟩ rfl).1⟩

/-- Claim C9: when the transfer is not canceled, `SetProperties` calls `ScheduleChunks`
exactly once, with one unit whose chunk id is `NewChunkID(source, 0, 0)`, and itself
sends no request, calls no `SetStatus`, writes no log line and does not call
`ReportTransferDone`; the status is unchanged when it returns. -/
theorem C9_schedules_one_unit (env : Env) (jptm : Jptm) (p : Pipeline) (pacer : Pacer)
    (h : jptm.canceled = false) :
    (emitted jptm (SetProperties env jptm p pacer).1).filter Event.isScheduleChunks =
      [.ScheduleChunks ⟨jptm.info.Source, 0, 0⟩] ∧
    (SetProperties env jptm p pacer).2.map ChunkFunc.id = [NewChunkID jptm.info.Source 0 0] ∧
    (NewChunkID jptm.info.Source 0 0).Name = jptm.info.Source ∧
    (NewChunkID jptm.info.Source 0 0).OffsetInFile = 0 ∧
    (NewChunkID jptm.info.Source 0 0).Length = 0 ∧
    (emitted jptm (SetProperties env jptm p pacer).1).countP Event.isRemote = 0 ∧
    (emitted jptm (SetProperties env jptm p pacer).1).countP Event.isSetStatus = 0 ∧
    (SetProperties env jptm p pacer).1.status = jptm.status ∧
    (emitted jptm (SetProperties env jptm p pacer).1).countP Event.isLogLine = 0 ∧
    (emitted jptm (SetProperties env jptm p pacer).1).countP Event.isJobFatal = 0 ∧
    (emitted jptm (SetProperties env jptm p pacer).1).countP Event.isReportTransferDone = 0 := by
  rw [SetProperties_active_eq env jptm p pacer h]
  have he : emitted jptm { jptm with
      trace := jptm.trace ++ [.WasCanceled, .Info,
        .ScheduleChunks (NewChunkID jptm.info.Source 0 0)] }
      = [.WasCanceled, .Info, .ScheduleChunks (NewChunkID jptm.info.Source 0 0)] :=
    emitted_append _ _ _ rfl
  rw [he]
  simp [List.filter, List.countP, List.countP.go, Event.isScheduleChunks, Event.isRemote,
    Event.isSetStatus, Event.isLogLine, Event.isLog, Event.isLogError, Event.isJobFatal,
    Event.isReportTransferDone, NewChunkID, createChunkFunc]

theorem C9_schedules_one_unit_witness :
    (sampleJptm .Blob false).canceled = false ∧
    (SetProperties envOk (sampleJptm .Blob false) samplePipeline samplePacer).2.map ChunkFunc.id
      = [NewChunkID "https://acct.blob.core.windows.net/c/b?sig=SECRET" 0 0] :=
  ⟨rfl, (C9_schedules_one_unit envOk (sampleJptm .Blob false) samplePipeline samplePacer
    rfl).2.1⟩

theorem run_panicked (v : Variant) (env : Env) (j : Jptm) (p : Pipeline)
    (hj : j.panicked = none) :
    (v.run env j p).panicked ≠ some "Shouldn't have happened" := by
  cases hparse : env.urlParse j.info.Source with
  | none =>
    rw [run_parse_error v env j p hparse]
    show some "runtime error: invalid memory address or nil pointer dereference" ≠ some "Shouldn't have happened"
    decide
  | some u =>
    rcases run_outcomes v env j p u hparse with h | ⟨err, h⟩ | ⟨err, h⟩ <;>
      rw [h] <;> simp [hj]

/-- Claim C10: a unit scheduled by `SetProperties`, run on a transfer manager `j`, asks
`FromTo` and then runs the variant fixed by the source kind alone: `setPropertiesBlob`
for Blob, `setPropertiesBlobFS` for BlobFS, `setPropertiesFile` for File.  For every
other source kind it panics with "Shouldn't have happened" without a request, a
`SetStatus` or a `ReportTransferDone`.  When the source kind is one of the three, that
panic does not occur. -/
theorem C10_dispatch_by_source_kind (env : Env) (jptm : Jptm) (p : Pipeline) (pacer : Pacer)
    (cf : ChunkFunc) (hcf : cf ∈ (SetProperties env jptm p pacer).2) (j : Jptm) :
    (j.fromTo.From = .Blob → cf.run j = setPropertiesBlob env (j.record .FromTo) p) ∧
    (j.fromTo.From = .BlobFS → cf.run j = setPropertiesBlobFS env (j.record .FromTo) p) ∧
    (j.fromTo.From = .File → cf.run j = setPropertiesFile env (j.record .FromTo) p) ∧
    (j.fromTo.From ≠ .Blob → j.fromTo.From ≠ .BlobFS → j.fromTo.From ≠ .File →
      (cf.run j).panicked = some "Shouldn't have happened" ∧
      emitted j (cf.run j) = [.FromTo] ∧
      (emitted j (cf.run j)).countP Event.isRemote = 0 ∧
      (emitted j (cf.run j)).countP Event.isSetStatus = 0 ∧
      (cf.run j).status = j.status ∧
      (emitted j (cf.run j)).countP Event.isReportTransferDone = 0) ∧
    ((j.fromTo.From = .Blob ∨ j.fromTo.From = .BlobFS ∨ j.fromTo.From = .File) →
      j.panicked = none → (cf.run j).panicked ≠ some "Shouldn't have happened") := by
  have hrun : cf.run j = chunkBody env p j := by
    by_cases hc : jptm.canceled = true
    · rw [SetProperties_canceled_eq env jptm p pacer hc] at hcf
      simp at hcf
    · have hc2 : jptm.canceled = false := by simpa using hc
      rw [SetProperties_active_eq env jptm p pacer hc2] at hcf
      simp at hcf
      rw [hcf]
      rfl
  rw [hrun]
  refine ⟨fun hk => chunkBody_eq_run .Blob env p j hk, fun hk => chunkBody_eq_run .BlobFS env p j hk,
    fun hk => chunkBody_eq_run .File env p j hk, ?_, ?_⟩
  · intro h1 h2 h3
    rw [chunkBody_unsupported env p j h1 h2 h3, emitted_append j _ _ rfl]
    exact ⟨rfl, rfl, by decide, by decide, rfl, by decide⟩
  · intro hk hj
    have hj2 : (j.record .FromTo).panicked = none := hj
    rcases hk with hk | hk | hk
    · rw [chunkBody_eq_run .Blob env p j hk]
      exact run_panicked .Blob env _ p hj2
    · rw [chunkBody_eq_run .BlobFS env p j hk]
      exact run_panicked .BlobFS env _ p hj2
    · rw [chunkBody_eq_run .File env p j hk]
      exact run_panicked .File env _ p hj2

theorem C10_dispatch_by_source_kind_witness :
    createChunkFunc true (NewChunkID sampleInfo.Source 0 0) (chunkBody envOk samplePipeline)
      ∈ (SetProperties envOk (sampleJptm .Blob false) samplePipeline samplePacer).2 ∧
    ((sampleJptm .Local false).fromTo.From ≠ .Blob → (sampleJptm .Local false).fromTo.From ≠ .BlobFS →
      (sampleJptm .Local false).fromTo.From ≠ .File →
      (ChunkFunc.run (createChunkFunc true (NewChunkID sampleInfo.Source 0 0)
        (chunkBody envOk samplePipeline)) (sampleJptm .Local false)).panicked
        = some "Shouldn't have happened") :=
  ⟨List.mem_singleton.mpr rfl,
   fun h1 h2 h3 => ((C10_dispatch_by_source_kind envOk (sampleJptm .Blob false) samplePipeline
    samplePacer _ (List.mem_singleton.mpr rfl) (sampleJptm .Local false)).2.2.2.1 h1 h2 h3).1⟩

theorem runTransfer_canceled_eq (env : Env) (jptm : Jptm) (p : Pipeline) (pacer : Pacer)
    (h : jptm.canceled = true) :
    runTransfer env jptm p pacer =
      { jptm with trace := jptm.trace ++ [.WasCanceled, .ReportTransferDone] } := by
  simp [runTransfer, SetProperties_canceled_eq env jptm p pacer h]

theorem runTransfer_active_eq (v : Variant) (env : Env) (jptm : Jptm) (p : Pipeline)
    (pacer : Pacer) (h : jptm.canceled = false) (hk : jptm.fromTo.From = v.kind) :
    runTransfer env jptm p pacer =
      v.run env
        { jptm with
          trace := jptm.trace ++ [.WasCanceled, .Info,
            .ScheduleChunks (NewChunkID jptm.info.Source 0 0), .FromTo] } p := by
  simp only [runTransfer, SetProperties_active_eq env jptm p pacer h, List.foldl, ChunkFunc.run,
    createChunkFunc]
  rw [chunkBody_eq_run v env p
    { jptm with
      trace := jptm.trace ++ [.WasCanceled, .Info,
        .ScheduleChunks (NewChunkID jptm.info.Source 0 0)] } hk]
  simp [Jptm.record]

theorem runTransfer_outcomes (v : Variant) (env : Env) (jptm : Jptm) (p : Pipeline)
    (pacer : Pacer) (u : URL) (h : jptm.canceled = false) (hk : jptm.fromTo.From = v.kind)
    (hparse : env.urlParse jptm.info.Source = some u) :
    ∃ st tail, (st = .Success ∧ tail = tailSuccess jptm.info ∨
        st = .Failed ∧ (∃ err, tail = tailOther jptm.info err) ∨
        st = .Failed ∧ (∃ err, tail = tailAuth jptm.info err)) ∧
      (runTransfer env jptm p pacer).status = st ∧
      emitted jptm (runTransfer env jptm p pacer) =
        [.WasCanceled, .Info, .ScheduleChunks (NewChunkID jptm.info.Source 0 0), .FromTo,
          .Info, .Context, .Remote (v.request u p jptm.info)] ++ tail := by
  rw [runTransfer_active_eq v env jptm p pacer h hk]
  rcases run_outcomes v env
    { jptm with
      trace := jptm.trace ++ [.WasCanceled, .Info,
        .ScheduleChunks (NewChunkID jptm.info.Source 0 0), .FromTo] } p u hparse
    with h | ⟨err, h⟩ | ⟨err, h⟩
  · exact ⟨.Success, tailSuccess jptm.info, Or.inl ⟨rfl, rfl⟩, by rw [h],
      by rw [h]; exact emitted_append jptm _ _ (by simp)⟩
  · exact ⟨.Failed, tailOther jptm.info err, Or.inr (Or.inl ⟨rfl, err, rfl⟩), by rw [h],
      by rw [h]; exact emitted_append jptm _ _ (by simp)⟩
  · exact ⟨.Failed, tailAuth jptm.info err, Or.inr (Or.inr ⟨rfl, err, rfl⟩), by rw [h],
      by rw [h]; exact emitted_append jptm _ _ (by simp)⟩

/-- Claim C6: for a transfer whose source kind is one of the three supported kinds, in
every outcome (canceled beforehand, or request answered with success, a forbidden error
or another error), the actions performed on the transfer manager by `SetProperties`
and the unit it schedules contain exactly one `ReportTransferDone`, which is the last
of them, and at most one `SetStatus`; when the transfer was not canceled there is
exactly one `SetStatus`, it immediately precedes `ReportTransferDone`, and it sets the
final status. -/
theorem C6_report_done_once_and_last (env : Env) (jptm : Jptm) (p : Pipeline) (pacer : Pacer)
    (hkind : jptm.fromTo.From = .Blob ∨ jptm.fromTo.From = .BlobFS ∨ jptm.fromTo.From = .File)
    (hparse : jptm.canceled = false → ∃ u, env.urlParse jptm.info.Source = some u) :
    ((emitted jptm (runTransfer env jptm p pacer)).filter Event.onJptm).countP
      Event.isReportTransferDone = 1 ∧
    ((emitted jptm (runTransfer env jptm p pacer)).filter Event.onJptm).getLast?
      = some .ReportTransferDone ∧
    ((emitted jptm (runTransfer env jptm p pacer)).filter Event.onJptm).countP
      Event.isSetStatus ≤ 1 ∧
    (jptm.canceled = false →
      ((emitted jptm (runTransfer env jptm p pacer)).filter Event.onJptm).countP
        Event.isSetStatus = 1 ∧
      ∃ before, (emitted jptm (runTransfer env jptm p pacer)).filter Event.onJptm =
          before ++ [.SetStatus (runTransfer env jptm p pacer).status, .ReportTransferDone] ∧
        before.countP Event.isSetStatus = 0 ∧
        before.countP Event.isReportTransferDone = 0) := by
  by_cases hc : jptm.canceled = true
  · rw [runTransfer_canceled_eq env jptm p pacer hc, emitted_append jptm _ _ rfl]
    refine ⟨by decide, by decide, by decide, ?_⟩
    intro hf
    rw [hc] at hf
    cases hf
  · have hc2 : jptm.canceled = false := by simpa using hc
    obtain ⟨u, hu⟩ := hparse hc2
    have hv : ∃ v : Variant, jptm.fromTo.From = v.kind := by
      rcases hkind with h | h | h
      · exact ⟨.Blob, h⟩
      · exact ⟨.BlobFS, h⟩
      · exact ⟨.File, h⟩
    obtain ⟨v, hv⟩ := hv
    obtain ⟨st, tail, hcase, hst, hem⟩ := runTransfer_outcomes v env jptm p pacer u hc2 hv hu
    rw [hem, hst]
    rcases hcase with ⟨hs, ht⟩ | ⟨hs, err, ht⟩ | ⟨hs, err, ht⟩
    · subst hs ht
      refine ⟨by simp [tailSuccess, List.filter, List.countP, List.countP.go, Event.onJptm,
          Event.isReportTransferDone],
        by simp [tailSuccess, List.filter, Event.onJptm],
        by simp [tailSuccess, List.filter, List.countP, List.countP.go, Event.onJptm,
          Event.isSetStatus], fun _ => ⟨by simp [tailSuccess, List.filter, List.countP,
          List.countP.go, Event.onJptm, Event.isSetStatus], ?_⟩⟩
      exact ⟨[.WasCanceled, .Info, .ScheduleChunks (NewChunkID jptm.info.Source 0 0), .FromTo,
        .Info, .Context, .Log .LogInfo (successMsg jptm.info.Destination)],
        by simp [tailSuccess, List.filter, Event.onJptm],
        by simp [List.countP, List.countP.go, Event.isSetStatus],
        by simp [List.countP, List.countP.go, Event.isReportTransferDone]⟩
    · subst hs ht
      refine ⟨by simp [tailOther, List.filter, List.countP, List.countP.go, Event.onJptm,
          Event.isReportTransferDone],
        by simp [tailOther, List.filter, Event.onJptm],
        by simp [tailOther, List.filter, List.countP, List.countP.go, Event.onJptm,
          Event.isSetStatus], fun _ => ⟨by simp [tailOther, List.filter, List.countP,
          List.countP.go, Event.onJptm, Event.isSetStatus], ?_⟩⟩
      exact ⟨[.WasCanceled, .Info, .ScheduleChunks (NewChunkID jptm.info.Source 0 0), .FromTo,
        .Info, .Context, .LogError jptm.info.Source "SET-PROPERTIES ERROR " (some err)],
        by simp [tailOther, List.filter, Event.onJptm],
        by simp [List.countP, List.countP.go, Event.isSetStatus],
        by simp [List.countP, List.countP.go, Event.isReportTransferDone]⟩
    · subst hs ht
      refine ⟨by simp [tailAuth, List.filter, List.countP, List.countP.go, Event.onJptm,
          Event.isReportTransferDone],
        by simp [tailAuth, List.filter, Event.onJptm],
        by simp [tailAuth, List.filter, List.countP, List.countP.go, Event.onJptm,
          Event.isSetStatus], fun _ => ⟨by simp [tailAuth, List.filter, List.countP,
          List.countP.go, Event.onJptm, Event.isSetStatus], ?_⟩⟩
      exact ⟨[.WasCanceled, .Info, .ScheduleChunks (NewChunkID jptm.info.Source 0 0), .FromTo,
        .Info, .Context, .Log .LogError (authFailedMsg err),
        .LogError jptm.info.Source "SET-PROPERTIES ERROR " (some err)],
        by simp [tailAuth, List.filter, Event.onJptm],
        by simp [List.countP, List.countP.go, Event.isSetStatus],
        by simp [List.countP, List.countP.go, Event.isReportTransferDone]⟩

theorem C6_report_done_once_and_last_witness :
    ((sampleJptm .BlobFS false).fromTo.From = .Blob ∨ (sampleJptm .BlobFS false).fromTo.From = .BlobFS
      ∨ (sampleJptm .BlobFS false).fromTo.From = .File) ∧
    ((emitted (sampleJptm .BlobFS false)
      (runTransfer (envFail (.azblobStorageError 403 "403 AuthenticationFailed"))
        (sampleJptm .BlobFS false) samplePipeline samplePacer)).filter Event.onJptm).getLast?
      = some .ReportTransferDone :=
  ⟨Or.inr (Or.inl rfl),
   (C6_report_done_once_and_last (envFail (.azblobStorageError 403 "403 AuthenticationFailed"))
    (sampleJptm .BlobFS false) samplePipeline samplePacer (Or.inr (Or.inl rfl))
    (fun _ => ⟨⟨sampleInfo.Source⟩, rfl⟩)).2.1⟩

end SetProps
